import Mathlib

/-!
Shallow embedding of the UI widget logic of the repository
(Drawer in `src/unnamed/part_000`, Sheet in
`src/src/components/lightswind/sheet.tsx`, Select in
`src/src/components/lightswind/select.tsx`, ThreeDImageRing in
`src/src/components/lightswind/3d-image-ring.tsx`, and the history
layout in `src/app/about/history/layout.tsx`).

Rendering is modelled by a small tree type `Node`; components that can
throw return `Except String Node`.  React contexts are modelled as
`Option` values: `none` means the component is rendered without the
corresponding provider ancestor.  A `React.SetStateAction<boolean>` is
either a boolean or a function on booleans.  State updaters (`setOpen`)
are modelled as functions from the provider state to the new provider
state, paired with the list of arguments passed to the user callback
`onOpenChange` in that call (so "calls it exactly once with b" is the
trace `[b]`).

The JavaScript field `open` is a Lean keyword, so the context/state
field is named `isOpen` throughout.
-/

/-- Rendered output tree (abstracting React elements). -/
inductive Node where
  | null
  | text (s : String)
  | element (tag : String) (children : List Node)
  | portal (container : String) (child : Node)
  | fragment (children : List Node)
deriving Repr

/-- `React.SetStateAction<boolean>`: a plain value or an updater function. -/
inductive SetStateAction where
  | value (b : Bool)
  | func (f : Bool → Bool)

/-- Applying a `SetStateAction` to a current value, as React does for
`setState(value)` and as `typeof value === "function" ? value(open) : value`
does in `setOpen`. -/
def applySetStateAction : SetStateAction → Bool → Bool
  | .value b, _ => b
  | .func f, cur => f cur

/-! ## Drawer (src/unnamed/part_000) -/

/-- The value provided by `DrawerContext`: `{ open, setOpen }`.  Only the
`open` field carries data; `setOpen` is modelled by the state functions
below. -/
structure DrawerContextValue where
  isOpen : Bool
deriving Repr, DecidableEq

/-- `useDrawerContext`: throws "useDrawerContext must be used within a
Drawer" when no `DrawerContext.Provider` ancestor exists. -/
def useDrawerContext (ctx : Option DrawerContextValue) :
    Except String DrawerContextValue :=
  match ctx with
  | none => .error "useDrawerContext must be used within a Drawer"
  | some c => .ok c

/-- State of one `Drawer` component instance: the `open` prop (present in
controlled mode) and the `uncontrolledOpen` `useState` cell. -/
structure DrawerState where
  controlledOpen : Option Bool
  uncontrolledOpen : Bool
deriving Repr, DecidableEq

/-- `const isControlled = controlledOpen !== undefined`. -/
def Drawer.isControlled (c : DrawerState) : Bool :=
  c.controlledOpen.isSome

/-- `const open = isControlled ? controlledOpen : uncontrolledOpen`. -/
def Drawer.openVal (c : DrawerState) : Bool :=
  match c.controlledOpen with
  | some b => b
  | none => c.uncontrolledOpen

/-- The `setOpen` callback of `Drawer`.  `hasOnOpenChange` records whether the
`onOpenChange` prop was supplied.  Returns the new component state and
the list of arguments passed to `onOpenChange`. -/
def Drawer.setOpen (c : DrawerState) (hasOnOpenChange : Bool)
    (value : SetStateAction) : DrawerState × List Bool :=
  let c' :=
    if Drawer.isControlled c then c
    else { c with uncontrolledOpen := applySetStateAction value c.uncontrolledOpen }
  let calls :=
    if hasOnOpenChange then [applySetStateAction value (Drawer.openVal c)]
    else []
  (c', calls)

/-- The context value a `Drawer` provides to its children. -/
def Drawer.provide (c : DrawerState) : DrawerContextValue :=
  ⟨Drawer.openVal c⟩

/-- `DrawerTrigger` rendering: reads the context via `useDrawerContext`
(throwing without a `Drawer` ancestor) and renders a `button`. -/
def DrawerTrigger (ctx : Option DrawerContextValue) (children : Node) :
    Except String Node := do
  let _ ← useDrawerContext ctx
  return .element "button" [children]

/-- The `onClick` of `DrawerTrigger`: `setOpen(true)`. -/
def DrawerTrigger.onClick (c : DrawerState) (hasOnOpenChange : Bool) :
    DrawerState × List Bool :=
  Drawer.setOpen c hasOnOpenChange (.value true)

/-- `DrawerClose` rendering: reads the context via `useDrawerContext`
(throwing without a `Drawer` ancestor) and renders a `button`. -/
def DrawerClose (ctx : Option DrawerContextValue) (children : Node) :
    Except String Node := do
  let _ ← useDrawerContext ctx
  return .element "button" [children]

/-- The `onClick` of `DrawerClose`: `setOpen(false)`. -/
def DrawerClose.onClick (c : DrawerState) (hasOnOpenChange : Bool) :
    DrawerState × List Bool :=
  Drawer.setOpen c hasOnOpenChange (.value false)

/-- `DrawerContentInner` rendering: reads the context via
`useDrawerContext`, then renders the backdrop overlay and the drawer
panel (handle bar, children, close button). -/
def DrawerContentInner (ctx : Option DrawerContextValue) (children : Node) :
    Except String Node := do
  let _ ← useDrawerContext ctx
  return .element "div"
    [ .element "motion.div" []
    , .element "motion.div"
        [ .element "div" []
        , children
        , .element "button" [.element "X" [], .element "span" [.text "Close drawer"]] ] ]

/-- `DrawerContent` rendering: reads the context via `useDrawerContext`;
returns `null` when `open` is false, otherwise
`createPortal(<AnimatePresence><DrawerContentInner/></AnimatePresence>, document.body)`. -/
def DrawerContent (ctx : Option DrawerContextValue) (children : Node) :
    Except String Node := do
  let c ← useDrawerContext ctx
  if !c.isOpen then return .null
  let inner ← DrawerContentInner ctx children
  return .portal "document.body" (.element "AnimatePresence" [inner])

/-! ## Sheet (src/src/components/lightswind/sheet.tsx) -/

/-- The value provided by `SheetContext`: `{ open, setOpen }`, with
`setOpen` modelled by the state functions below. -/
structure SheetContextValue where
  isOpen : Bool
deriving Repr, DecidableEq

/-- State of one `Sheet` component instance. -/
structure SheetState where
  controlledOpen : Option Bool
  uncontrolledOpen : Bool
deriving Repr, DecidableEq

/-- `const isControlled = controlledOpen !== undefined`. -/
def Sheet.isControlled (c : SheetState) : Bool :=
  c.controlledOpen.isSome

/-- `const open = isControlled ? controlledOpen : uncontrolledOpen`. -/
def Sheet.openVal (c : SheetState) : Bool :=
  match c.controlledOpen with
  | some b => b
  | none => c.uncontrolledOpen

/-- The `setOpen` callback of `Sheet` (same shape as `Drawer.setOpen`). -/
def Sheet.setOpen (c : SheetState) (hasOnOpenChange : Bool)
    (value : SetStateAction) : SheetState × List Bool :=
  let c' :=
    if Sheet.isControlled c then c
    else { c with uncontrolledOpen := applySetStateAction value c.uncontrolledOpen }
  let calls :=
    if hasOnOpenChange then [applySetStateAction value (Sheet.openVal c)]
    else []
  (c', calls)

/-- The context value a `Sheet` provides to its children. -/
def Sheet.provide (c : SheetState) : SheetContextValue :=
  ⟨Sheet.openVal c⟩

/-- The `open` a Sheet sub-component sees:
`React.useContext(SheetContext) || { open: false }`. -/
def sheetCtxOpen (ctx : Option SheetContextValue) : Bool :=
  match ctx with
  | some c => c.isOpen
  | none => false

/-- A click by a Sheet sub-component on the context `setOpen` with fallback
`{ setOpen: () => {} }`: when a `Sheet` ancestor exists (`ctx = some _`,
provider state `c`) the action is dispatched to it; without an ancestor
nothing happens.  Returns the new provider state (when one exists) together
with the `onOpenChange` call trace. -/
def sheetCtxSetOpen (ctx : Option SheetContextValue) (c : Option SheetState)
    (hasOnOpenChange : Bool) (value : SetStateAction) :
    Option SheetState × List Bool :=
  match ctx, c with
  | some _, some st =>
      let (st', calls) := Sheet.setOpen st hasOnOpenChange value
      (some st', calls)
  | _, _ => (c, [])

/-- `SheetTrigger` rendering (non-`asChild` branch): never consults
`useDrawerContext`-style guards; renders a `button` for any context. -/
def SheetTrigger (ctx : Option SheetContextValue) (children : Node) : Node :=
  let _ := ctx
  .element "button" [children]

/-- The `onClick` of `SheetTrigger`: `setOpen(true)` through the context (or
the no-op fallback). -/
def SheetTrigger.onClick (ctx : Option SheetContextValue)
    (c : Option SheetState) (hasOnOpenChange : Bool) :
    Option SheetState × List Bool :=
  sheetCtxSetOpen ctx c hasOnOpenChange (.value true)

/-- `SheetClose` rendering: renders a `button` for any context. -/
def SheetClose (ctx : Option SheetContextValue) (children : Node) : Node :=
  let _ := ctx
  .element "button" [children]

/-- The `onClick` of `SheetClose`: `setOpen(false)` through the context (or
the no-op fallback). -/
def SheetClose.onClick (ctx : Option SheetContextValue)
    (c : Option SheetState) (hasOnOpenChange : Bool) :
    Option SheetState × List Bool :=
  sheetCtxSetOpen ctx c hasOnOpenChange (.value false)

/-- `SheetPortal`: `open ? <>{children}</> : null` with fallback
`{ open: false }`. -/
def SheetPortal (ctx : Option SheetContextValue) (children : Node) : Node :=
  if sheetCtxOpen ctx then .fragment [children] else .null

/-- `SheetOverlay` rendering: a `motion.div`, for any context. -/
def SheetOverlay (ctx : Option SheetContextValue) : Node :=
  let _ := ctx
  .element "motion.div" []

/-- The `onClick` of `SheetOverlay`: `setOpen(false)` through the context (or
the no-op fallback). -/
def SheetOverlay.onClick (ctx : Option SheetContextValue)
    (c : Option SheetState) (hasOnOpenChange : Bool) :
    Option SheetState × List Bool :=
  sheetCtxSetOpen ctx c hasOnOpenChange (.value false)

/-- `SheetContentInner`: with fallback `{ open: false, setOpen: () => {} }`;
returns `null` unless `open`, else overlay plus motion panel. -/
def SheetContentInner (ctx : Option SheetContextValue) (children : Node) : Node :=
  if !sheetCtxOpen ctx then .null
  else
    .element "div"
      [ .element "motion.div" []
      , .element "motion.div" [children] ]

/-- `SheetContent`: with fallback `{ open: false }` and a `mounted` flag
set by an effect.  When `!mounted || !open` it returns a hidden `div`;
otherwise `createPortal(..., document.body)`. -/
def SheetContent (ctx : Option SheetContextValue) (mounted : Bool)
    (children : Node) : Node :=
  if !mounted || !sheetCtxOpen ctx then .element "div" []
  else
    .portal "document.body"
      (.element "AnimatePresence"
        [.element "div"
          [ .element "motion.div" []
          , .element "motion.div" [children] ]])

/-- The local stub declared inside `SheetContent`:
`function setOpen(arg0: boolean): void { throw new Error("Function not implemented."); }`. -/
def SheetContent.stubSetOpen (arg0 : Bool) : Except String Unit :=
  let _ := arg0
  .error "Function not implemented."

/-- Clicking the backdrop overlay rendered by `SheetContent`: the click is
only reachable when the portal rendered (`mounted` and `open`), and it
invokes the local stub via `onClick={() => setOpen(false)}`. -/
def SheetContent.overlayClick (ctx : Option SheetContextValue)
    (mounted : Bool) : Option (Except String Unit) :=
  if mounted && sheetCtxOpen ctx then some (SheetContent.stubSetOpen false)
  else none

/-! ## history layout (src/app/about/history/layout.tsx) -/

/-- The local stub in the layout file:
`function hydrateRoot(arg0, arg1) { throw new Error("Function not implemented."); }`. -/
def hydrateRoot (arg0 arg1 : Node) : Except String Unit :=
  let _ := (arg0, arg1)
  .error "Function not implemented."

/-! ## Select (src/src/components/lightswind/select.tsx) -/

/-- The value provided by `SelectContext` (the function fields `setOpen`,
`onValueChange`, `setSearchQuery` are modelled by the state functions
below; `triggerRef` carries no data). -/
structure SelectContextType where
  value : String
  isOpen : Bool
  searchQuery : String
deriving Repr, DecidableEq

/-- State of one `Select` component instance: the controlled props and the
`useState` cells `selectedValue`, `isOpen`, `searchQuery`. -/
structure SelectState where
  controlledValue : Option String
  controlledOpen : Option Bool
  disabled : Bool
  selectedValue : String
  isOpen : Bool
  searchQuery : String
deriving Repr, DecidableEq

/-- The `handleOpenChange` of `Select`: returns early when `disabled`; updates
`isOpen` only in uncontrolled mode; then calls `onOpenChange?.(newOpen)`.
Returns the new state and the `onOpenChange` call trace. -/
def Select.handleOpenChange (c : SelectState) (hasOnOpenChange : Bool)
    (newOpen : Bool) : SelectState × List Bool :=
  if c.disabled then (c, [])
  else
    let c' :=
      if c.controlledOpen.isNone then { c with isOpen := newOpen } else c
    (c', if hasOnOpenChange then [newOpen] else [])

/-- The `handleValueChange` of `Select`: updates `selectedValue` only in
uncontrolled mode; then calls `onValueChange?.(newValue)`. -/
def Select.handleValueChange (c : SelectState) (hasOnValueChange : Bool)
    (newValue : String) : SelectState × List String :=
  let c' :=
    if c.controlledValue.isNone then { c with selectedValue := newValue } else c
  (c', if hasOnValueChange then [newValue] else [])

/-- The context value a `Select` provides to its children. -/
def Select.provide (c : SelectState) : SelectContextType :=
  ⟨c.selectedValue, c.isOpen, c.searchQuery⟩

/-- The children `SelectValue` scans: `SelectItem`s (with a value and a
display label), `SelectGroup`s (recursed into), and anything else. -/
inductive SelectChild where
  | item (value : String) (label : String)
  | group (children : List SelectChild)
  | other
deriving Repr

/-- JavaScript truthiness of the `displayValue` closure variable: `null`
and the empty string are falsy. -/
def jsTruthy (s : Option String) : Bool :=
  match s with
  | none => false
  | some l => l ≠ ""

/-- JavaScript `a || b` on strings: falls through when `a` is empty. -/
def jsOr (a b : String) : String :=
  if a = "" then b else a

/-- `findDisplayValue` in `SelectValue`: `React.Children.forEach` over the
nodes with the closure variable `displayValue` (the accumulator `acc`,
starting at `null`).  A node is skipped when `displayValue` is already
truthy (`if (displayValue) return;`); a `SelectItem` whose `value`
equals the context value assigns its children; a `SelectGroup` is
recursed into.  A falsy assignment (an empty label) can thus be
overwritten by a later match. -/
def findDisplayValue (v : String) (acc : Option String) :
    List SelectChild → Option String
  | [] => acc
  | n :: rest =>
      let acc' :=
        if jsTruthy acc then acc
        else
          match n with
          | .item val lab => if val = v then some lab else acc
          | .group cs => findDisplayValue v acc cs
          | .other => acc
      findDisplayValue v acc' rest

/-- `SelectValue` rendering: throws "SelectValue must be used within a
Select" without a `Select` ancestor; otherwise renders a `span` holding
`displayValue || context.value || placeholder` (JavaScript `||`, so a
`null` or empty `displayValue` falls through), with the
"Select an option" span when the whole content is empty. -/
def SelectValue (ctx : Option SelectContextType) (placeholder : String)
    (children : List SelectChild) : Except String Node :=
  match ctx with
  | none => .error "SelectValue must be used within a Select"
  | some c =>
      let displayValue := findDisplayValue c.value none children
      let content := jsOr (displayValue.getD "") (jsOr c.value placeholder)
      .ok (.element "span"
        [if content ≠ "" then .text content
         else .element "span" [.text "Select an option"]])

/-- `SelectTrigger` rendering: throws "SelectTrigger must be used within a
Select" without a `Select` ancestor; otherwise a `button` showing the
search input when open, else the children, plus the chevron. -/
def SelectTrigger (ctx : Option SelectContextType) (children : Node) :
    Except String Node :=
  match ctx with
  | none => .error "SelectTrigger must be used within a Select"
  | some c =>
      .ok (.element "button"
        [ if c.isOpen then .element "input" [] else children
        , .element "ChevronDown" [] ])

/-- The `onClick` of `SelectTrigger`: `setOpen(!open)` where `open` and
`setOpen` come from the context provided by the enclosing `Select`. -/
def SelectTrigger.onClick (c : SelectState) (hasOnOpenChange : Bool) :
    SelectState × List Bool :=
  Select.handleOpenChange c hasOnOpenChange (!(Select.provide c).isOpen)

/-! ## ThreeDImageRing (src/src/components/lightswind/3d-image-ring.tsx) -/

/-- The two motion values of the ring: `rotationX` and `rotationY`.
Numbers are modelled by rationals. -/
structure RingRotation where
  rotationX : ℚ
  rotationY : ℚ
deriving Repr, DecidableEq

/-- `handleDrag`: returns early unless `draggable`; otherwise
`rotationY.set(rotationY.get() + info.delta.x * 0.5)` and
`rotationX.set(rotationX.get() - info.delta.y * 0.5)`. -/
def handleDrag (draggable : Bool) (s : RingRotation) (dx dy : ℚ) :
    RingRotation :=
  if !draggable then s
  else
    { rotationY := s.rotationY + dx * (1 / 2)
    , rotationX := s.rotationX - dy * (1 / 2) }

/-- One entry of `imagePositions`: `{ rotateY, translateZ }`. -/
structure ImagePosition where
  rotateY : ℚ
  translateZ : ℚ
deriving Repr, DecidableEq

/-- `imagePositions`: for each index,
`angle = (index / images.length) * 360`, `translateZ = imageDistance`. -/
def imagePositions (images : List String) (imageDistance : ℚ) :
    List ImagePosition :=
  (List.range images.length).map fun (index : ℕ) =>
    { rotateY := ((index : ℚ) / (images.length : ℚ)) * 360
    , translateZ := imageDistance }

/-- The inline transform of the `img` element of image `i`:
`rotateY(${-imagePositions[index].rotateY}deg)`. -/
def imgRotateY (images : List String) (imageDistance : ℚ)
    (i : Fin (imagePositions images imageDistance).length) : ℚ :=
  -((imagePositions images imageDistance).get i).rotateY

/-! ## Theorems -/

/-- `imagePositions` has one entry per image. -/
theorem imagePositions_length (images : List String) (d : ℚ) :
    (imagePositions images d).length = images.length := by
  unfold imagePositions
  rw [List.length_map, List.length_range]

/-- C2: Each Drawer sub-component that reads the drawer context
(`DrawerTrigger`, `DrawerContent`, `DrawerClose`), and each of
`SelectValue` and `SelectTrigger`, rendered without its `Drawer`
(resp. `Select`) ancestor throws an error instead of rendering. -/
theorem context_subcomponents_throw_without_ancestor :
    ∀ (ch : Node) (ph : String) (cs : List SelectChild),
      DrawerTrigger none ch = .error "useDrawerContext must be used within a Drawer" ∧
      DrawerContent none ch = .error "useDrawerContext must be used within a Drawer" ∧
      DrawerClose none ch = .error "useDrawerContext must be used within a Drawer" ∧
      SelectValue none ph cs = .error "SelectValue must be used within a Select" ∧
      SelectTrigger none ch = .error "SelectTrigger must be used within a Select" := by
  intro ch ph cs
  exact ⟨rfl, rfl, rfl, rfl, rfl⟩

/-- C3: whenever the open state of the context is false, `DrawerContent`
returns `null`, and `SheetPortal` and `SheetContentInner` render
nothing, for every props value. -/
theorem closed_state_renders_nothing :
    ∀ (ctx : DrawerContextValue) (sctx : Option SheetContextValue) (ch ch' : Node),
      ctx.isOpen = false →
      sheetCtxOpen sctx = false →
      DrawerContent (some ctx) ch = .ok .null ∧
      SheetPortal sctx ch' = .null ∧
      SheetContentInner sctx ch' = .null := by
  intro ctx sctx ch ch' hd hs
  refine ⟨?_, ?_, ?_⟩
  · obtain ⟨b⟩ := ctx
    cases b
    · rfl
    · simp at hd
  · simp [SheetPortal, hs]
  · simp [SheetContentInner, hs]

/-- C3 witness at a concrete closed context. -/
theorem closed_state_renders_nothing_witness :
    DrawerContent (some ⟨false⟩) (.text "body") = .ok .null ∧
    SheetPortal none (.text "body") = .null ∧
    SheetContentInner none (.text "body") = .null := by
  have h := closed_state_renders_nothing ⟨false⟩ none (.text "body") (.text "body")
    rfl rfl
  exact h

/-- C4: whenever the open state of the context is true, `DrawerContent`
returns a portal whose container is `document.body` wrapping the drawer
content (backdrop overlay, handle bar, the children, close button)
inside `AnimatePresence`, and `SheetContent`, once mounted, returns a
portal into `document.body` wrapping its overlay and children. -/
theorem open_state_renders_body_portal :
    ∀ (ctx : DrawerContextValue) (sctx : Option SheetContextValue) (ch ch' : Node),
      ctx.isOpen = true →
      sheetCtxOpen sctx = true →
      DrawerContent (some ctx) ch =
        .ok (.portal "document.body"
          (.element "AnimatePresence"
            [.element "div"
              [ .element "motion.div" []
              , .element "motion.div"
                  [ .element "div" []
                  , ch
                  , .element "button"
                      [.element "X" [], .element "span" [.text "Close drawer"]] ] ]])) ∧
      SheetContent sctx true ch' =
        .portal "document.body"
          (.element "AnimatePresence"
            [.element "div"
              [ .element "motion.div" []
              , .element "motion.div" [ch'] ]]) := by
  intro ctx sctx ch ch' hd hs
  constructor
  · obtain ⟨b⟩ := ctx
    cases b
    · simp at hd
    · rfl
  · simp [SheetContent, hs]

/-- C4 witness at a concrete open context: the portal into
`document.body` carries the given children. -/
theorem open_state_renders_body_portal_witness :
    DrawerContent (some ⟨true⟩) (.text "body") =
      .ok (.portal "document.body"
        (.element "AnimatePresence"
          [.element "div"
            [ .element "motion.div" []
            , .element "motion.div"
                [ .element "div" []
                , .text "body"
                , .element "button"
                    [.element "X" [], .element "span" [.text "Close drawer"]] ] ]])) ∧
    SheetContent (some ⟨true⟩) true (.text "body") =
      .portal "document.body"
        (.element "AnimatePresence"
          [.element "div"
            [ .element "motion.div" []
            , .element "motion.div" [.text "body"] ]]) :=
  open_state_renders_body_portal ⟨true⟩ (some ⟨true⟩) (.text "body") (.text "body")
    rfl rfl

/-- C8: every Sheet sub-component rendered without a `Sheet` ancestor
does not throw: it falls back to `open = false` and a no-op `setOpen`,
so `SheetPortal` renders nothing and clicking a trigger, close button,
or overlay leaves all state unchanged and fires no callback. -/
theorem sheet_orphans_render_and_noop :
    ∀ (ch : Node) (c : Option SheetState) (hcb : Bool),
      SheetTrigger none ch = .element "button" [ch] ∧
      SheetClose none ch = .element "button" [ch] ∧
      SheetOverlay none = .element "motion.div" [] ∧
      sheetCtxOpen none = false ∧
      SheetPortal none ch = .null ∧
      SheetTrigger.onClick none c hcb = (c, []) ∧
      SheetClose.onClick none c hcb = (c, []) ∧
      SheetOverlay.onClick none c hcb = (c, []) := by
  intro ch c hcb
  refine ⟨rfl, rfl, rfl, rfl, rfl, ?_, ?_, ?_⟩ <;>
    cases c <;> rfl

/-- C5: in controlled mode `setOpen` never touches `uncontrolledOpen`,
and (in both modes) a supplied `onOpenChange` is called exactly once
with the resolved next boolean, a function argument being applied to the
current `open` value — for `Drawer` and for `Sheet`. -/
theorem setOpen_controlled_frame_and_callback :
    ∀ (c : DrawerState) (s : SheetState) (hcb : Bool) (v : SetStateAction),
      (c.controlledOpen.isSome = true →
        (Drawer.setOpen c hcb v).1.uncontrolledOpen = c.uncontrolledOpen) ∧
      (Drawer.setOpen c true v).2 = [applySetStateAction v (Drawer.openVal c)] ∧
      (s.controlledOpen.isSome = true →
        (Sheet.setOpen s hcb v).1.uncontrolledOpen = s.uncontrolledOpen) ∧
      (Sheet.setOpen s true v).2 = [applySetStateAction v (Sheet.openVal s)] := by
  intro c s hcb v
  refine ⟨?_, ?_, ?_, ?_⟩
  · intro h
    simp [Drawer.setOpen, Drawer.isControlled, h]
  · simp [Drawer.setOpen]
  · intro h
    simp [Sheet.setOpen, Sheet.isControlled, h]
  · simp [Sheet.setOpen]

/-- C5 witness: a controlled Drawer and Sheet (`open = some true`) keep
`uncontrolledOpen` unchanged on `setOpen(false)`. -/
theorem setOpen_controlled_frame_and_callback_witness :
    (Drawer.setOpen ⟨some true, false⟩ true (.value false)).1.uncontrolledOpen = false ∧
    (Sheet.setOpen ⟨some true, false⟩ true (.value false)).1.uncontrolledOpen = false := by
  have h := setOpen_controlled_frame_and_callback ⟨some true, false⟩
    ⟨some true, false⟩ true (.value false)
  exact ⟨h.1 rfl, h.2.2.1 rfl⟩

/-- C6: clicking `SelectTrigger` calls `setOpen(!open)`; on an
uncontrolled, non-disabled `Select` one click inverts `isOpen` and two
consecutive clicks restore it. -/
theorem selectTrigger_click_toggles :
    ∀ (c : SelectState) (hcb : Bool),
      c.controlledOpen = none →
      c.disabled = false →
      (SelectTrigger.onClick c true).2 = [!c.isOpen] ∧
      (SelectTrigger.onClick c hcb).1.isOpen = !c.isOpen ∧
      (SelectTrigger.onClick (SelectTrigger.onClick c hcb).1 hcb).1.isOpen =
        c.isOpen := by
  intro c hcb h1 h2
  refine ⟨?_, ?_, ?_⟩ <;>
    simp [SelectTrigger.onClick, Select.handleOpenChange, Select.provide, h1, h2]

/-- C6 witness: a closed uncontrolled Select opens on one click and is
closed again after two. -/
theorem selectTrigger_click_toggles_witness :
    (SelectTrigger.onClick ⟨none, none, false, "", false, ""⟩ true).2 = [true] ∧
    (SelectTrigger.onClick ⟨none, none, false, "", false, ""⟩ true).1.isOpen = true ∧
    (SelectTrigger.onClick
      (SelectTrigger.onClick ⟨none, none, false, "", false, ""⟩ true).1 true).1.isOpen =
      false := by
  have h := selectTrigger_click_toggles ⟨none, none, false, "", false, ""⟩ true rfl rfl
  exact h

/-- C7: `DrawerTrigger`/`SheetTrigger` clicks call `setOpen(true)` and
`DrawerClose`/`SheetClose` clicks call `setOpen(false)`, irrespective of
the current state; in uncontrolled mode each such click is idempotent. -/
theorem trigger_close_clicks_idempotent :
    ∀ (c : DrawerState) (s : SheetState) (sctx : SheetContextValue) (hcb : Bool),
      c.controlledOpen = none →
      s.controlledOpen = none →
      (DrawerTrigger.onClick c hcb).1.uncontrolledOpen = true ∧
      (DrawerClose.onClick c hcb).1.uncontrolledOpen = false ∧
      (DrawerTrigger.onClick (DrawerTrigger.onClick c hcb).1 hcb).1 =
        (DrawerTrigger.onClick c hcb).1 ∧
      (DrawerClose.onClick (DrawerClose.onClick c hcb).1 hcb).1 =
        (DrawerClose.onClick c hcb).1 ∧
      (SheetTrigger.onClick (some sctx) (some s) hcb).1 =
        some { s with uncontrolledOpen := true } ∧
      (SheetClose.onClick (some sctx) (some s) hcb).1 =
        some { s with uncontrolledOpen := false } ∧
      (SheetTrigger.onClick (some sctx)
          (SheetTrigger.onClick (some sctx) (some s) hcb).1 hcb).1 =
        (SheetTrigger.onClick (some sctx) (some s) hcb).1 ∧
      (SheetClose.onClick (some sctx)
          (SheetClose.onClick (some sctx) (some s) hcb).1 hcb).1 =
        (SheetClose.onClick (some sctx) (some s) hcb).1 := by
  intro c s sctx hcb h1 h2
  refine ⟨?_, ?_, ?_, ?_, ?_, ?_, ?_, ?_⟩ <;>
    simp [DrawerTrigger.onClick, DrawerClose.onClick, Drawer.setOpen,
      Drawer.isControlled, SheetTrigger.onClick, SheetClose.onClick,
      sheetCtxSetOpen, Sheet.setOpen, Sheet.isControlled,
      applySetStateAction, h1, h2]

/-- C7 witness: concrete uncontrolled Drawer and Sheet states. -/
theorem trigger_close_clicks_idempotent_witness :
    (DrawerTrigger.onClick ⟨none, false⟩ true).1.uncontrolledOpen = true ∧
    (DrawerClose.onClick ⟨none, true⟩ true).1.uncontrolledOpen = false := by
  have ht := trigger_close_clicks_idempotent ⟨none, false⟩ ⟨none, false⟩ ⟨false⟩
    true rfl rfl
  have hc := trigger_close_clicks_idempotent ⟨none, true⟩ ⟨none, true⟩ ⟨true⟩
    true rfl rfl
  exact ⟨ht.1, hc.2.1⟩

/-- C9: `handleDrag` with pointer delta `(dx, dy)` adds `0.5 * dx` to
`rotationY` and subtracts `0.5 * dy` from `rotationX` (the whole state
of the two motion values); when `draggable` is false it changes
nothing. -/
theorem handleDrag_updates_rotations :
    ∀ (s : RingRotation) (dx dy : ℚ),
      (handleDrag true s dx dy).rotationY = s.rotationY + (1 / 2) * dx ∧
      (handleDrag true s dx dy).rotationX = s.rotationX - (1 / 2) * dy ∧
      handleDrag false s dx dy = s := by
  intro s dx dy
  refine ⟨?_, ?_, ?_⟩ <;> simp [handleDrag] <;> ring

/-- C10: image `i` of `n` sits at `rotateY = (i / n) * 360` with
`translateZ = imageDistance`; consecutive images are `360 / n` degrees
apart; and the inner `img` element is counter-rotated by exactly
`-(i / n) * 360` degrees. -/
theorem ring_positions_even_spacing :
    ∀ (images : List String) (d : ℚ) (i : ℕ) (h : i < images.length),
      (imagePositions images d)[i]? =
        some { rotateY := ((i : ℚ) / (images.length : ℚ)) * 360
             , translateZ := d } ∧
      imgRotateY images d ⟨i, (imagePositions_length images d).symm ▸ h⟩ =
        -(((i : ℚ) / (images.length : ℚ)) * 360) ∧
      ∀ j : ℕ, j + 1 < images.length →
        ∃ p q, (imagePositions images d)[j]? = some p ∧
          (imagePositions images d)[j + 1]? = some q ∧
          q.rotateY - p.rotateY = 360 / (images.length : ℚ) := by
  intro images d i h
  refine ⟨?_, ?_, ?_⟩
  · simp [imagePositions, List.getElem?_map, List.getElem?_range, h]
  · simp [imgRotateY, imagePositions, List.get_eq_getElem, List.getElem_map,
      List.getElem_range]
  · intro j hj
    have hj' : j < images.length := Nat.lt_of_succ_lt hj
    refine ⟨{ rotateY := ((j : ℚ) / (images.length : ℚ)) * 360, translateZ := d }
      , { rotateY := (((j + 1 : ℕ) : ℚ) / (images.length : ℚ)) * 360, translateZ := d }
      , ?_, ?_, ?_⟩
    · simp [imagePositions, List.getElem?_map, List.getElem?_range, hj']
    · simp [imagePositions, List.getElem?_map, List.getElem?_range, hj]
    · have hn : (images.length : ℚ) ≠ 0 := by
        have hpos : 0 < images.length := Nat.lt_of_le_of_lt (Nat.zero_le _) hj
        exact_mod_cast hpos.ne.symm
      push_cast
      field_simp
      ring

/-- C10 witness: a two-image ring at distance 5 places image 1 at
`(1 / 2) * 360 = 180` degrees. -/
theorem ring_positions_even_spacing_witness :
    (imagePositions ["a", "b"] 5)[1]? =
      some { rotateY := ((1 : ℚ) / (((["a", "b"] : List String).length : ℕ) : ℚ)) * 360
           , translateZ := 5 } :=
  (ring_positions_even_spacing ["a", "b"] 5 1 (by decide)).1

/-- C1 counterexample: with a `Sheet` ancestor present and open and the
content mounted — correct usage, not misuse — clicking the backdrop
overlay rendered by `SheetContent` throws "Function not implemented."
via the local `setOpen` stub, so not every thrown error arises from
using a sub-component outside its required contextual parent. -/
theorem sheetContent_overlay_click_throws_in_valid_usage :
    SheetContent.overlayClick (some ⟨true⟩) true =
      some (.error "Function not implemented.") := rfl

/-- C1 amended: rendering any Drawer or Select sub-component with its
required ancestor present succeeds (the context-guard errors of
`useDrawerContext` / `SelectValue` / `SelectTrigger` fire only without
the ancestor), but two unimplemented stubs also throw
"Function not implemented." in correct usage: the `setOpen` stub behind
the backdrop click of `SheetContent` and the local layout `hydrateRoot`;
every error a reachable `SheetContent` overlay click produces is that
stub error. -/
theorem errors_only_misuse_or_unimplemented_stub :
    ∀ (dctx : DrawerContextValue) (sctx : SelectContextType) (ch : Node)
      (ph : String) (cs : List SelectChild) (b mounted : Bool)
      (octx : Option SheetContextValue) (n m : Node),
      (DrawerTrigger (some dctx) ch).isOk = true ∧
      (DrawerClose (some dctx) ch).isOk = true ∧
      (DrawerContentInner (some dctx) ch).isOk = true ∧
      (DrawerContent (some dctx) ch).isOk = true ∧
      (SelectValue (some sctx) ph cs).isOk = true ∧
      (SelectTrigger (some sctx) ch).isOk = true ∧
      SheetContent.stubSetOpen b = .error "Function not implemented." ∧
      hydrateRoot n m = .error "Function not implemented." ∧
      (∀ r, SheetContent.overlayClick octx mounted = some r →
        r = .error "Function not implemented.") := by
  intro dctx sctx ch ph cs b mounted octx n m
  obtain ⟨db⟩ := dctx
  refine ⟨rfl, rfl, rfl, ?_, rfl, rfl, rfl, rfl, ?_⟩
  · cases db <;> rfl
  · intro r hr
    by_cases hmo : mounted && sheetCtxOpen octx
    · simp [SheetContent.overlayClick, hmo, SheetContent.stubSetOpen] at hr
      simp [hr]
    · simp [SheetContent.overlayClick, hmo] at hr

/-- C1 amended witness: at a concrete open Drawer context the content
renders, and the reachable overlay click of a mounted open
`SheetContent` yields exactly the stub error. -/
theorem errors_only_misuse_or_unimplemented_stub_witness :
    (DrawerContent (some ⟨true⟩) Node.null).isOk = true ∧
    SheetContent.stubSetOpen false = .error "Function not implemented." := by
  have h := errors_only_misuse_or_unimplemented_stub ⟨true⟩ ⟨"", false, ""⟩
    Node.null "" [] false true (some ⟨true⟩) Node.null Node.null
  exact ⟨h.2.2.2.1, h.2.2.2.2.2.2.2.2 (SheetContent.stubSetOpen false) rfl⟩
